import Mathlib

/-!
# tmux-tui: bookmark store and resolver — verification

Shallow embedding of the bookmark persistence and resolution subsystem of
`tmux-tui`, translated from the TypeScript sources:

* `src/types/tmux.ts`, `src/types/bookmarks.ts` — data model
* `src/tmux/adapter.ts` — snapshot point lookups (pure queries over a
  `TmuxState` snapshot)
* `src/cli/resolver.ts` — three-tier bookmark resolution
* `src/storage/store.ts` — `BookmarkStore` operations; the persisted
  envelope is read, the single mutation applied, and the envelope written
  back, so each mutating operation is modelled as a pure function from the
  envelope (plus inputs) to the returned value paired with the written
  envelope.  The nondeterministic inputs `crypto.randomUUID()` and
  `Date.now()` are passed in as explicit `freshId` / `time` parameters.

JavaScript truthiness on optional strings (`if (s)` is false for both
`undefined` and `""`) is modelled by `truthy`.
-/

namespace TmuxTui

/-- tmux session row (`src/types/tmux.ts`, `TmuxSession`). -/
structure TmuxSession where
  sessionId : String
  sessionName : String
  windowCount : Nat
  attached : Bool
  created : Nat
deriving DecidableEq, Repr

/-- tmux window row (`src/types/tmux.ts`, `TmuxWindow`). -/
structure TmuxWindow where
  windowId : String
  windowIndex : Int
  windowName : String
  sessionId : String
  sessionName : String
  active : Bool
  paneCount : Nat
deriving DecidableEq, Repr

/-- tmux pane row (`src/types/tmux.ts`, `TmuxPane`). -/
structure TmuxPane where
  paneId : String
  paneIndex : Int
  windowId : String
  windowIndex : Int
  windowName : String
  sessionId : String
  sessionName : String
  active : Bool
  cwd : String
  currentCommand : String
deriving DecidableEq, Repr

/-- Full snapshot of the live hierarchy (`TmuxState`). -/
structure TmuxState where
  sessions : List TmuxSession
  windows : List TmuxWindow
  panes : List TmuxPane
deriving DecidableEq, Repr

/-- Jump target made of stable ids (`TmuxTarget`); all fields optional. -/
structure TmuxTarget where
  sessionId : Option String := none
  windowId : Option String := none
  paneId : Option String := none
deriving DecidableEq, Repr

/-- Fallback identifiers used when stable ids fail (`TmuxFallback`). -/
structure TmuxFallback where
  sessionName : Option String := none
  windowIndex : Option Int := none
  windowName : Option String := none
  paneIndex : Option Int := none
deriving DecidableEq, Repr

/-- Bookmark target kind (`src/types/bookmarks.ts`, `BookmarkKind`). -/
inductive BookmarkKind where
  | session
  | window
  | pane
deriving DecidableEq, Repr

/-- Metadata stored with a bookmark (`BookmarkMeta`). -/
structure BookmarkMeta where
  cwd : Option String := none
  host : Option String := none
  lastUsed : Nat
  createdAt : Nat
deriving DecidableEq, Repr

/-- A single bookmark entry (`Bookmark`). -/
structure Bookmark where
  id : String
  label : String
  kind : BookmarkKind
  target : TmuxTarget
  fallback : TmuxFallback
  meta : BookmarkMeta
deriving DecidableEq, Repr

/-- Which tier produced a resolution (`BookmarkResolution.method`). -/
inductive ResolveMethod where
  | id
  | fallback
  | cwd
deriving DecidableEq, Repr

/-- Resolution outcome (`BookmarkResolution`). -/
inductive BookmarkResolution where
  | resolved (method : ResolveMethod) (target : TmuxTarget)
  | failed (reason : String)
deriving DecidableEq, Repr

/-- Current schema version (`CURRENT_SCHEMA_VERSION = 1`). -/
def CURRENT_SCHEMA_VERSION : Int := 1

/-- Persisted envelope (`BookmarksFile`). -/
structure BookmarksFile where
  version : Int
  items : List Bookmark
deriving DecidableEq, Repr

/-- JavaScript truthiness of an optional string: `undefined` and `""` are
falsy, every other string truthy. -/
def truthy : Option String → Bool
  | none => false
  | some s => !s.isEmpty

/-! ## Snapshot point lookups (`src/tmux/adapter.ts`)

Each `find*` method lists the live rows and returns the first match with
`Array.prototype.find`, so over a snapshot they are `List.find?`. -/

/-- Model of `TmuxAdapter.findSessionById`. -/
def findSessionById (st : TmuxState) (sessionId : String) : Option TmuxSession :=
  st.sessions.find? (fun s => s.sessionId == sessionId)

/-- Model of `TmuxAdapter.findWindowById`. -/
def findWindowById (st : TmuxState) (windowId : String) : Option TmuxWindow :=
  st.windows.find? (fun w => w.windowId == windowId)

/-- Model of `TmuxAdapter.findPaneById`. -/
def findPaneById (st : TmuxState) (paneId : String) : Option TmuxPane :=
  st.panes.find? (fun p => p.paneId == paneId)

/-- Model of `TmuxAdapter.findSessionByName`. -/
def findSessionByName (st : TmuxState) (name : String) : Option TmuxSession :=
  st.sessions.find? (fun s => s.sessionName == name)

/-- Model of `TmuxAdapter.findWindowByName`. -/
def findWindowByName (st : TmuxState) (sessionId : String) (windowName : String) :
    Option TmuxWindow :=
  st.windows.find? (fun w => w.sessionId == sessionId && w.windowName == windowName)

/-- Model of `TmuxAdapter.findWindowByIndex`. -/
def findWindowByIndex (st : TmuxState) (sessionId : String) (windowIndex : Int) :
    Option TmuxWindow :=
  st.windows.find? (fun w => w.sessionId == sessionId && w.windowIndex == windowIndex)

/-! ## Resolver (`src/cli/resolver.ts`) -/

/-- Model of `tryResolveById` (resolver.ts lines 42–72): look the stable id required
by `kind` up in the snapshot; `if (!target.xId) return null` is a JS
truthiness test on the optional string. -/
def tryResolveById (bookmark : Bookmark) (st : TmuxState) : Option TmuxTarget :=
  match bookmark.kind with
  | .session =>
    match bookmark.target.sessionId with
    | none => none
    | some sid =>
      if sid.isEmpty then none
      else
        match findSessionById st sid with
        | some session => some { sessionId := some session.sessionId }
        | none => none
  | .window =>
    match bookmark.target.windowId with
    | none => none
    | some wid =>
      if wid.isEmpty then none
      else
        match findWindowById st wid with
        | some window =>
          some { sessionId := some window.sessionId, windowId := some window.windowId }
        | none => none
  | .pane =>
    match bookmark.target.paneId with
    | none => none
    | some pid =>
      if pid.isEmpty then none
      else
        match findPaneById st pid with
        | some pane =>
          some { sessionId := some pane.sessionId, windowId := some pane.windowId,
                 paneId := some pane.paneId }
        | none => none

/-- Session step of `tryResolveByFallback` (resolver.ts lines 83–87):
`session` stays `null` unless `fallback.sessionName` is truthy, in which
case it is `findSessionByName`. -/
def sessionForFallback (st : TmuxState) (fallback : TmuxFallback) : Option TmuxSession :=
  match fallback.sessionName with
  | none => none
  | some n => if n.isEmpty then none else findSessionByName st n

/-- Window-by-name step of `tryResolveByFallback` (resolver.ts lines
103–106): attempted only when `fallback.windowName` is truthy. -/
def windowByNameForFallback (st : TmuxState) (fallback : TmuxFallback)
    (sessionId : String) : Option TmuxWindow :=
  match fallback.windowName with
  | none => none
  | some wn => if wn.isEmpty then none else findWindowByName st sessionId wn

/-- Window step of `tryResolveByFallback` (resolver.ts lines 100–111): by
name first; by index only if the name lookup left `window` null and
`fallback.windowIndex !== undefined`. -/
def windowForFallback (st : TmuxState) (fallback : TmuxFallback)
    (sessionId : String) : Option TmuxWindow :=
  match windowByNameForFallback st fallback sessionId with
  | some w => some w
  | none =>
    match fallback.windowIndex with
    | none => none
    | some i => findWindowByIndex st sessionId i

/-- Model of `tryResolveByFallback` (resolver.ts lines 77–128).  With no session
match the tier fails for every kind; for kind `session` a session match is
immediate success; for `window`/`pane` a window match is required and the
result carries `sessionId` and `windowId` only (for `pane` the containing
window is the degraded result — resolver.ts lines 121–125). -/
def tryResolveByFallback (bookmark : Bookmark) (st : TmuxState) : Option TmuxTarget :=
  match sessionForFallback st bookmark.fallback with
  | none => none
  | some session =>
    match bookmark.kind with
    | .session => some { sessionId := some session.sessionId }
    | .window =>
      match windowForFallback st bookmark.fallback session.sessionId with
      | none => none
      | some window =>
        some { sessionId := some session.sessionId, windowId := some window.windowId }
    | .pane =>
      match windowForFallback st bookmark.fallback session.sessionId with
      | none => none
      | some window =>
        some { sessionId := some session.sessionId, windowId := some window.windowId }

/-- Model of `tryResolveByCwd` (resolver.ts lines 133–148): first pane whose cwd is
an exact string match. -/
def tryResolveByCwd (cwd : String) (st : TmuxState) : Option TmuxTarget :=
  match st.panes.find? (fun p => p.cwd == cwd) with
  | some m =>
    some { sessionId := some m.sessionId, windowId := some m.windowId,
           paneId := some m.paneId }
  | none => none

/-- Model of `resolveBookmark` (resolver.ts lines 12–37): stable-id tier, then
fallback tier, then — only when `bookmark.meta.cwd` is truthy — the cwd
tier; first success wins and tags the method. -/
def resolveBookmark (bookmark : Bookmark) (st : TmuxState) : BookmarkResolution :=
  match tryResolveById bookmark st with
  | some idResult => .resolved .id idResult
  | none =>
    match tryResolveByFallback bookmark st with
    | some fallbackResult => .resolved .fallback fallbackResult
    | none =>
      match bookmark.meta.cwd with
      | some c =>
        if c.isEmpty then
          .failed "Could not resolve bookmark to a valid tmux target"
        else
          match tryResolveByCwd c st with
          | some cwdResult => .resolved .cwd cwdResult
          | none => .failed "Could not resolve bookmark to a valid tmux target"
      | none => .failed "Could not resolve bookmark to a valid tmux target"

/-! ## Store operations (`src/storage/store.ts`, class `BookmarkStore`)

Each mutating method reads the envelope, applies one mutation and writes the
whole envelope back; the model takes the envelope and returns the method's
return value paired with the envelope as written (unchanged when the method
bails out before `write`). -/

namespace BookmarkStore

/-- Mint a fresh bookmark as `add`/`replace` do, with `generateId()` and
`now()` passed in as `freshId` and `time` (both `lastUsed` and `createdAt`
are set to `now()`; `host` comes from the environment). -/
def mkBookmark (freshId : String) (time : Nat) (label : String) (kind : BookmarkKind)
    (target : TmuxTarget) (fallback : TmuxFallback) (cwd : Option String)
    (host : Option String) : Bookmark :=
  { id := freshId, label := label, kind := kind, target := target,
    fallback := fallback,
    meta := { cwd := cwd, host := host, lastUsed := time, createdAt := time } }

/-- Model of `BookmarkStore.migrate` (store.ts lines 233–242): an envelope already at
the current version is returned unchanged; otherwise the version field is
rewritten to the current version ("For now, just update the version"). -/
def migrate (data : BookmarksFile) : BookmarksFile :=
  if data.version = CURRENT_SCHEMA_VERSION then data
  else { data with version := CURRENT_SCHEMA_VERSION }

/-- Model of `BookmarkStore.getByLabel` (store.ts lines 288–291):
`items.find((b) => b.label === label) ?? null`. -/
def getByLabel (data : BookmarksFile) (label : String) : Option Bookmark :=
  data.items.find? (fun b => b.label == label)

/-- Model of `BookmarkStore.getBySlot` (store.ts lines 296–303): `index = slot - 1`,
null when out of range, else `items[index] ?? null`. -/
def getBySlot (data : BookmarksFile) (slot : Int) : Option Bookmark :=
  let index := slot - 1
  if index < 0 ∨ index ≥ (data.items.length : Int) then none
  else data.items[index.toNat]?

/-- Model of `BookmarkStore.removeBySlot` (store.ts lines 357–369): out of range is a
no-op returning false; in range, `splice(index, 1)` removes the entry. -/
def removeBySlot (data : BookmarksFile) (slot : Int) : Bool × BookmarksFile :=
  let index := slot - 1
  if index < 0 ∨ index ≥ (data.items.length : Int) then (false, data)
  else (true, { data with items := data.items.eraseIdx index.toNat })

/-- Mutate the first list entry whose `id` matches, as
`items.find((b) => b.id === id)` followed by `bookmark.label = newLabel`
does on the in-memory array. -/
def renameFirst (items : List Bookmark) (id newLabel : String) : List Bookmark :=
  match items with
  | [] => []
  | b :: rest =>
    if b.id == id then { b with label := newLabel } :: rest
    else b :: renameFirst rest id newLabel

/-- Model of `BookmarkStore.rename` (store.ts lines 374–386): false (no write) when
no entry has the id; otherwise the found entry's label is overwritten in
place and the envelope written back. -/
def rename (data : BookmarksFile) (id newLabel : String) : Bool × BookmarksFile :=
  match data.items.find? (fun b => b.id == id) with
  | none => (false, data)
  | some _ => (true, { data with items := renameFirst data.items id newLabel })

/-- Model of `BookmarkStore.replace` (store.ts lines 391–432): null when
`index = slot - 1 < 0`; otherwise a fresh bookmark is minted and either
pushed at the end (the `while (items.length <= index)` branch, which pushes
once and returns) or written over `items[index]`. -/
def replace (data : BookmarksFile) (slot : Int) (label : String) (kind : BookmarkKind)
    (target : TmuxTarget) (fallback : TmuxFallback) (cwd : Option String)
    (freshId : String) (time : Nat) (host : Option String) :
    Option Bookmark × BookmarksFile :=
  let index := slot - 1
  if index < 0 then (none, data)
  else
    let bookmark := mkBookmark freshId time label kind target fallback cwd host
    if (data.items.length : Int) ≤ index then
      (some bookmark, { data with items := data.items ++ [bookmark] })
    else
      (some bookmark, { data with items := data.items.set index.toNat bookmark })

/-- Model of `BookmarkStore.move` (store.ts lines 450–473): both slots must be in
range or the call is a no-op returning false; in range, `splice(fromIndex,
1)` removes the entry (always present, so the `if (!bookmark)` guard never
fires) and `splice(toIndex, 0, bookmark)` reinserts it. -/
def move (data : BookmarksFile) (fromSlot toSlot : Int) : Bool × BookmarksFile :=
  let fromIndex := fromSlot - 1
  let toIndex := toSlot - 1
  if fromIndex < 0 ∨ fromIndex ≥ (data.items.length : Int) ∨
      toIndex < 0 ∨ toIndex ≥ (data.items.length : Int) then
    (false, data)
  else
    match data.items[fromIndex.toNat]? with
    | none => (false, data)
    | some bookmark =>
      (true,
        { data with
          items := (data.items.eraseIdx fromIndex.toNat).insertIdx toIndex.toNat bookmark })

end BookmarkStore

/-! ## Concrete instances used in the theorems -/

/-- A stored session bookmark with the given id and label. -/
def mkStored (id label : String) : Bookmark :=
  { id := id, label := label, kind := .session,
    target := { sessionId := some "$1" },
    fallback := { sessionName := some "work" },
    meta := { lastUsed := 10, createdAt := 10 } }

/-- First of two bookmarks sharing the label `"dup"`. -/
def dupB1 : Bookmark := mkStored "id-1" "dup"

/-- Second of two bookmarks sharing the label `"dup"`. -/
def dupB2 : Bookmark := mkStored "id-2" "dup"

/-- Envelope holding two bookmarks with the same label. -/
def dupFile : BookmarksFile := { version := 1, items := [dupB1, dupB2] }

/-- Empty envelope at the current schema version. -/
def emptyFile : BookmarksFile := { version := 1, items := [] }

/-- Envelope whose version field is ahead of the current schema version. -/
def futureFile : BookmarksFile := { version := 2, items := [] }

/-- Bookmark labelled `"first"`. -/
def firstB : Bookmark := mkStored "id-a" "first"

/-- Bookmark labelled `"second"`. -/
def secondB : Bookmark := mkStored "id-b" "second"

/-- Bookmark labelled `"third"`. -/
def thirdB : Bookmark := mkStored "id-c" "third"

/-- Envelope holding the bookmarks labelled first/second/third. -/
def threeFile : BookmarksFile := { version := 1, items := [firstB, secondB, thirdB] }

/-- Live session named `"work"` with id `"$7"`. -/
def workSession : TmuxSession :=
  { sessionId := "$7", sessionName := "work", windowCount := 2, attached := false,
    created := 0 }

/-- Live window named `"editor"` (id `"@5"`, index 9) inside `"$7"`. -/
def editorWindow : TmuxWindow :=
  { windowId := "@5", windowIndex := 9, windowName := "editor", sessionId := "$7",
    sessionName := "work", active := false, paneCount := 1 }

/-- Live window at index 2 (id `"@6"`, named `"other"`) inside `"$7"`. -/
def indexWindow : TmuxWindow :=
  { windowId := "@6", windowIndex := 2, windowName := "other", sessionId := "$7",
    sessionName := "work", active := false, paneCount := 1 }

/-- Snapshot with one live session and two live windows, no panes. -/
def sampleState : TmuxState :=
  { sessions := [workSession], windows := [editorWindow, indexWindow], panes := [] }

/-- Session bookmark whose stable id `"$1"` is dead but whose fallback
session name `"work"` is live. -/
def sessionBookmark : Bookmark :=
  { id := "b-1", label := "w", kind := .session,
    target := { sessionId := some "$1" },
    fallback := { sessionName := some "work" },
    meta := { lastUsed := 0, createdAt := 0 } }

/-- Pane bookmark whose stable pane id is dead and whose fallback names a
live session, a live window name and a (different) live window index. -/
def paneBookmark : Bookmark :=
  { id := "b-2", label := "p", kind := .pane,
    target := { paneId := some "%3" },
    fallback := { sessionName := some "work", windowIndex := some 2,
                  windowName := some "editor" },
    meta := { lastUsed := 0, createdAt := 0 } }

/-- Window bookmark with no fallback session name but with window fallbacks
set, and with a recorded cwd. -/
def noSessionBookmark : Bookmark :=
  { id := "b-3", label := "n", kind := .window,
    target := { windowId := some "@9" },
    fallback := { windowIndex := some 2, windowName := some "editor" },
    meta := { cwd := some "/tmp/project", lastUsed := 0, createdAt := 0 } }

/-- The bookmark minted in the concrete `replace` scenarios (fresh id
`"fresh-id"`, creation time 100). -/
def replacedB : Bookmark :=
  BookmarkStore.mkBookmark "fresh-id" 100 "x" .session { sessionId := some "$1" } {}
    none none

/-- Result of `replace` at slot 3 on the empty envelope. -/
def replaceOnEmpty : Option Bookmark × BookmarksFile :=
  BookmarkStore.replace emptyFile 3 "x" .session { sessionId := some "$1" } {} none
    "fresh-id" 100 none

/-- Result of `replace` at slot 2 on the three-bookmark envelope. -/
def replaceOnThree : Option Bookmark × BookmarksFile :=
  BookmarkStore.replace threeFile 2 "x" .session { sessionId := some "$1" } {} none
    "fresh-id" 100 none

/-! ## Theorems -/

/-- A list is a permutation of its `i`-th element consed onto the list with
the `i`-th entry erased. -/
theorem perm_getElem_cons_eraseIdx {α : Type} (l : List α) (i : Nat) (h : i < l.length) :
    l.Perm (l[i] :: l.eraseIdx i) := by
  conv_lhs => rw [← List.take_append_drop i l, List.drop_eq_getElem_cons h]
  rw [List.eraseIdx_eq_take_drop_succ]
  exact List.perm_middle

/-- C6: `getBySlot k` with `1 ≤ k ≤ length` returns the bookmark at
position `k-1` of the sequence; for every other `k` it returns null. -/
theorem getBySlot_spec (data : BookmarksFile) (slot : Int) :
    BookmarkStore.getBySlot data slot =
      if 1 ≤ slot ∧ slot ≤ (data.items.length : Int) then
        data.items[(slot - 1).toNat]?
      else none := by
  simp only [BookmarkStore.getBySlot]
  split_ifs with h1 h2 h2 <;> first | rfl | omega

/-- C2 counterexample: on the envelope `⟨version 2, []⟩` — strictly ahead of
the current schema version 1 — `migrate` silently rewrites the version down
to 1 instead of rejecting, refuting "migrate never downgrades a
future-version envelope". -/
theorem migrate_future_counterexample :
    futureFile.version > CURRENT_SCHEMA_VERSION
    ∧ BookmarkStore.migrate futureFile
      = { version := CURRENT_SCHEMA_VERSION, items := [] } := by
  constructor
  · decide
  · decide

/-- C2 amended: `migrate` rewrites every envelope — past or future version
alike — to the current schema version with the items untouched, returning
the input unchanged when the version already is current; `read` never
rejects a future-version file. -/
theorem migrate_amended (data : BookmarksFile) :
    (BookmarkStore.migrate data).version = CURRENT_SCHEMA_VERSION
    ∧ (BookmarkStore.migrate data).items = data.items
    ∧ (data.version = CURRENT_SCHEMA_VERSION → BookmarkStore.migrate data = data) := by
  unfold BookmarkStore.migrate
  split_ifs with h
  · exact ⟨h, rfl, fun _ => rfl⟩
  · exact ⟨rfl, rfl, fun hv => absurd hv h⟩

/-- C2 amended, witness at the envelope already at the current version. -/
theorem migrate_amended_witness :
    (BookmarkStore.migrate emptyFile).version = CURRENT_SCHEMA_VERSION
    ∧ (BookmarkStore.migrate emptyFile).items = emptyFile.items
    ∧ BookmarkStore.migrate emptyFile = emptyFile :=
  ⟨(migrate_amended emptyFile).1, (migrate_amended emptyFile).2.1,
    (migrate_amended emptyFile).2.2 (by decide)⟩

/-- C3 counterexample: with two stored bookmarks both labelled `"dup"`,
`getByLabel "dup"` returns the first one, not the last one — refuting "last
match wins". -/
theorem getByLabel_counterexample :
    dupFile.items = [dupB1, dupB2]
    ∧ dupB1.label = "dup" ∧ dupB2.label = "dup" ∧ dupB1 ≠ dupB2
    ∧ BookmarkStore.getByLabel dupFile "dup" = some dupB1
    ∧ BookmarkStore.getByLabel dupFile "dup" ≠ some dupB2 := by
  refine ⟨rfl, rfl, rfl, by decide, by decide, by decide⟩

/-- C3 amended: `getByLabel` returns the **first** bookmark in sequence
order whose label matches (everything before it in the sequence has a
different label); for a label with no match it returns null. -/
theorem getByLabel_first_match (data : BookmarksFile) (lbl : String) :
    (BookmarkStore.getByLabel data lbl = none ↔ ∀ b ∈ data.items, b.label ≠ lbl)
    ∧ (∀ b, BookmarkStore.getByLabel data lbl = some b →
        b.label = lbl
        ∧ ∃ pre post, data.items = pre ++ b :: post ∧ ∀ c ∈ pre, c.label ≠ lbl) := by
  constructor
  · rw [BookmarkStore.getByLabel, List.find?_eq_none]
    simp
  · intro b h
    rw [BookmarkStore.getByLabel, List.find?_eq_some] at h
    obtain ⟨hp, pre, post, heq, hall⟩ := h
    refine ⟨by simpa using hp, pre, post, heq, fun c hc => by simpa using hall c hc⟩

/-- C3 amended, witness: on the duplicate-label envelope the returned
bookmark is the first one and nothing before it matches. -/
theorem getByLabel_first_match_witness :
    dupB1.label = "dup"
    ∧ ∃ pre post, dupFile.items = pre ++ dupB1 :: post ∧ ∀ c ∈ pre, c.label ≠ "dup" :=
  (getByLabel_first_match dupFile "dup").2 dupB1 (by decide)

/-- C7: `removeBySlot` with an in-range slot returns true, deletes exactly
the entry at that slot and shifts every later entry down by one slot; out
of range it returns false and leaves the envelope unchanged. -/
theorem removeBySlot_spec (data : BookmarksFile) (slot : Int) :
    ((slot ≤ 0 ∨ slot > (data.items.length : Int)) →
      BookmarkStore.removeBySlot data slot = (false, data))
    ∧ (1 ≤ slot → slot ≤ (data.items.length : Int) →
      (BookmarkStore.removeBySlot data slot).1 = true
      ∧ (BookmarkStore.removeBySlot data slot).2.version = data.version
      ∧ (BookmarkStore.removeBySlot data slot).2.items.length = data.items.length - 1
      ∧ (∀ j : Nat, (j : Int) < slot - 1 →
          (BookmarkStore.removeBySlot data slot).2.items[j]? = data.items[j]?)
      ∧ (∀ j : Nat, slot - 1 ≤ (j : Int) →
          (BookmarkStore.removeBySlot data slot).2.items[j]? = data.items[j + 1]?)) := by
  constructor
  · intro h
    simp only [BookmarkStore.removeBySlot]
    rw [if_pos]
    omega
  · intro h1 h2
    have hcond : ¬(slot - 1 < 0 ∨ slot - 1 ≥ (data.items.length : Int)) := by omega
    have hlt : (slot - 1).toNat < data.items.length := by omega
    simp only [BookmarkStore.removeBySlot, if_neg hcond]
    refine ⟨by trivial, by trivial, ?_, ?_, ?_⟩
    · exact List.length_eraseIdx_of_lt hlt
    · intro j hj
      exact List.getElem?_eraseIdx_of_lt _ _ _ (by omega)
    · intro j hj
      exact List.getElem?_eraseIdx_of_ge _ _ _ (by omega)

/-- C7 witness: the spec's concrete scenario — from first/second/third,
`removeBySlot 2` leaves first/third, and slot 2 now holds the bookmark
labelled third. -/
theorem removeBySlot_spec_witness :
    (BookmarkStore.removeBySlot threeFile 2).1 = true
    ∧ (BookmarkStore.removeBySlot threeFile 2).2.items = [firstB, thirdB]
    ∧ BookmarkStore.getBySlot (BookmarkStore.removeBySlot threeFile 2).2 2 = some thirdB
    ∧ thirdB.label = "third" :=
  ⟨((removeBySlot_spec threeFile 2).2 (by decide) (by decide)).1,
   by decide, by decide, rfl⟩

/-- C5: with both slots in range `move` returns true and performs a pure
permutation — the bookmarks (hence the multiset of ids) are preserved and
the entry at `toSlot` afterwards is the entry that was at `fromSlot`
before; with either slot out of range it returns false and changes
nothing. -/
theorem move_spec (data : BookmarksFile) (fromSlot toSlot : Int) :
    ((fromSlot ≤ 0 ∨ fromSlot > (data.items.length : Int) ∨ toSlot ≤ 0 ∨
        toSlot > (data.items.length : Int)) →
      BookmarkStore.move data fromSlot toSlot = (false, data))
    ∧ (1 ≤ fromSlot → fromSlot ≤ (data.items.length : Int) →
       1 ≤ toSlot → toSlot ≤ (data.items.length : Int) →
      (BookmarkStore.move data fromSlot toSlot).1 = true
      ∧ (BookmarkStore.move data fromSlot toSlot).2.items.Perm data.items
      ∧ ((BookmarkStore.move data fromSlot toSlot).2.items.map Bookmark.id : Multiset String)
          = (data.items.map Bookmark.id : Multiset String)
      ∧ (BookmarkStore.move data fromSlot toSlot).2.items[(toSlot - 1).toNat]?
          = data.items[(fromSlot - 1).toNat]?) := by
  constructor
  · intro h
    simp only [BookmarkStore.move]
    rw [if_pos]
    omega
  · intro h1 h2 h3 h4
    have hcond : ¬(fromSlot - 1 < 0 ∨ fromSlot - 1 ≥ (data.items.length : Int) ∨
        toSlot - 1 < 0 ∨ toSlot - 1 ≥ (data.items.length : Int)) := by omega
    have hf : (fromSlot - 1).toNat < data.items.length := by omega
    have herase : (data.items.eraseIdx (fromSlot - 1).toNat).length
        = data.items.length - 1 := List.length_eraseIdx_of_lt hf
    have h5 : (toSlot - 1).toNat ≤ (data.items.eraseIdx (fromSlot - 1).toNat).length := by
      rw [herase]; omega
    simp only [BookmarkStore.move, if_neg hcond, List.getElem?_eq_getElem hf]
    have hperm : ((data.items.eraseIdx (fromSlot - 1).toNat).insertIdx (toSlot - 1).toNat
        (data.items[(fromSlot - 1).toNat])).Perm data.items := by
      refine ((List.perm_insertIdx _ _ h5).trans ?_)
      exact (perm_getElem_cons_eraseIdx data.items (fromSlot - 1).toNat hf).symm
    have hlen : (toSlot - 1).toNat
        < ((data.items.eraseIdx (fromSlot - 1).toNat).insertIdx (toSlot - 1).toNat
            (data.items[(fromSlot - 1).toNat])).length := by
      rw [List.length_insertIdx _ _ h5, herase]; omega
    refine ⟨by trivial, hperm, ?_, ?_⟩
    · exact Multiset.coe_eq_coe.mpr (hperm.map Bookmark.id)
    · rw [List.getElem?_eq_getElem hlen]
      exact congrArg some (List.getElem_insertIdx_self _ _ _ h5)

/-- C5 witness: moving slot 1 to slot 3 in the three-bookmark envelope. -/
theorem move_spec_witness :
    (BookmarkStore.move threeFile 1 3).1 = true
    ∧ (BookmarkStore.move threeFile 1 3).2.items.Perm threeFile.items
    ∧ ((BookmarkStore.move threeFile 1 3).2.items.map Bookmark.id : Multiset String)
        = (threeFile.items.map Bookmark.id : Multiset String)
    ∧ (BookmarkStore.move threeFile 1 3).2.items[(2 : Nat)]? = threeFile.items[(0 : Nat)]? :=
  (move_spec threeFile 1 3).2 (by decide) (by decide) (by decide) (by decide)

/-- C4 counterexample: on the empty envelope `replace` at the positive slot
3 does not return null, but the minted bookmark lands at slot 1 — the
resulting sequence is `[bookmark]` and position 3 is empty, refuting
"occupies exactly position slot". -/
theorem replace_counterexample :
    replaceOnEmpty.1 = some replacedB
    ∧ replaceOnEmpty.2.items = [replacedB]
    ∧ replaceOnEmpty.2.items[(2 : Nat)]? = none := by
  refine ⟨by decide, by decide, by decide⟩

/-- C4 amended: `replace` returns null iff the slot is non-positive; for a
positive slot it returns the freshly minted bookmark (new id, new
`createdAt`); when the slot is at most the current length the bookmark
overwrites exactly position `slot` and every other entry is unchanged;
when the slot exceeds the length the bookmark is instead appended at the
end of the sequence. -/
theorem replace_amended (data : BookmarksFile) (slot : Int) (label : String)
    (kind : BookmarkKind) (target : TmuxTarget) (fallback : TmuxFallback)
    (cwd : Option String) (freshId : String) (time : Nat) (host : Option String) :
    ((BookmarkStore.replace data slot label kind target fallback cwd freshId time
        host).1 = none ↔ slot ≤ 0)
    ∧ (1 ≤ slot →
        (BookmarkStore.replace data slot label kind target fallback cwd freshId time
            host).1
          = some (BookmarkStore.mkBookmark freshId time label kind target fallback cwd
              host))
    ∧ (1 ≤ slot → slot ≤ (data.items.length : Int) →
        (BookmarkStore.replace data slot label kind target fallback cwd freshId time
            host).2.items[(slot - 1).toNat]?
          = some (BookmarkStore.mkBookmark freshId time label kind target fallback cwd
              host)
        ∧ ∀ j : Nat, j ≠ (slot - 1).toNat →
            (BookmarkStore.replace data slot label kind target fallback cwd freshId
                time host).2.items[j]? = data.items[j]?)
    ∧ ((data.items.length : Int) < slot →
        (BookmarkStore.replace data slot label kind target fallback cwd freshId time
            host).2.items
          = data.items
            ++ [BookmarkStore.mkBookmark freshId time label kind target fallback cwd
                host]) := by
  refine ⟨?_, ?_, ?_, ?_⟩
  · simp only [BookmarkStore.replace]
    split_ifs with h0 h1 <;> simp <;> omega
  · intro h1
    simp only [BookmarkStore.replace]
    split_ifs with h0 h2
    · omega
    · rfl
    · rfl
  · intro h1 h2
    have h0 : ¬(slot - 1 < 0) := by omega
    have h3 : ¬((data.items.length : Int) ≤ slot - 1) := by omega
    have hlt : (slot - 1).toNat < data.items.length := by omega
    simp only [BookmarkStore.replace, if_neg h0, if_neg h3]
    refine ⟨List.getElem?_set_self hlt, ?_⟩
    intro j hj
    exact List.getElem?_set_ne (Ne.symm hj)
  · intro hgt
    have h0 : ¬(slot - 1 < 0) := by omega
    have h3 : (data.items.length : Int) ≤ slot - 1 := by omega
    simp only [BookmarkStore.replace, if_neg h0, if_pos h3]

/-- C4 amended, witness: replacing slot 2 of the three-bookmark envelope
puts the minted bookmark at position 2, keeps position 0, and returns it. -/
theorem replace_amended_witness :
    replaceOnThree.2.items[(1 : Nat)]? = some replacedB
    ∧ replaceOnThree.2.items[(0 : Nat)]? = threeFile.items[(0 : Nat)]?
    ∧ replaceOnThree.1 = some replacedB :=
  ⟨((replace_amended threeFile 2 "x" .session { sessionId := some "$1" } {} none
        "fresh-id" 100 none).2.2.1 (by decide) (by decide)).1,
   ((replace_amended threeFile 2 "x" .session { sessionId := some "$1" } {} none
        "fresh-id" 100 none).2.2.1 (by decide) (by decide)).2 0 (by decide),
   (replace_amended threeFile 2 "x" .session { sessionId := some "$1" } {} none
        "fresh-id" 100 none).2.1 (by decide)⟩

/-- Helper fact: `renameFirst` rewrites exactly the first entry whose id matches,
leaving its position and every other entry intact. -/
theorem renameFirst_eq_set {items : List Bookmark} {id : String} (newLabel : String)
    (b₀ : Bookmark) (hmem : b₀ ∈ items) (hid : b₀.id = id) :
    ∃ i : Nat, ∃ b : Bookmark, items[i]? = some b ∧ b.id = id ∧
      BookmarkStore.renameFirst items id newLabel
        = items.set i { b with label := newLabel } := by
  induction items with
  | nil => cases hmem
  | cons hd tl ih =>
    by_cases hh : hd.id = id
    · exact ⟨0, hd, by simp, hh, by simp [BookmarkStore.renameFirst, hh]⟩
    · have hmem' : b₀ ∈ tl := by
        cases hmem with
        | head => exact absurd hid hh
        | tail _ h => exact h
      obtain ⟨i, b, hget, hbid, heq⟩ := ih hmem'
      refine ⟨i + 1, b, by simpa using hget, hbid, ?_⟩
      simp [BookmarkStore.renameFirst, hh, heq]

/-- C9: for an id present in the store `rename` returns true and rewrites
only the label of the first bookmark with that id — its position, its
other fields, every other bookmark and the envelope version are unchanged;
for an absent id it returns false and the envelope is unchanged. -/
theorem rename_spec (data : BookmarksFile) (id newLabel : String) :
    ((∀ b ∈ data.items, b.id ≠ id) →
      BookmarkStore.rename data id newLabel = (false, data))
    ∧ (∀ b₀ ∈ data.items, b₀.id = id →
        (BookmarkStore.rename data id newLabel).1 = true
        ∧ (BookmarkStore.rename data id newLabel).2.version = data.version
        ∧ ∃ i : Nat, ∃ b : Bookmark, data.items[i]? = some b ∧ b.id = id
            ∧ (BookmarkStore.rename data id newLabel).2.items
              = data.items.set i { b with label := newLabel }) := by
  constructor
  · intro h
    have hnone : data.items.find? (fun b => b.id == id) = none := by
      rw [List.find?_eq_none]
      intro x hx
      simpa using h x hx
    simp [BookmarkStore.rename, hnone]
  · intro b₀ hmem hid
    obtain ⟨c, hc⟩ : ∃ c, data.items.find? (fun b => b.id == id) = some c := by
      cases hf : data.items.find? (fun b => b.id == id) with
      | none =>
        rw [List.find?_eq_none] at hf
        exact absurd (by simpa using hid) (hf b₀ hmem)
      | some c => exact ⟨c, rfl⟩
    simp only [BookmarkStore.rename, hc]
    exact ⟨by trivial, by trivial, renameFirst_eq_set newLabel b₀ hmem hid⟩

/-- C9 witness: renaming the bookmark with id `"id-b"` in the
three-bookmark envelope. -/
theorem rename_spec_witness :
    (BookmarkStore.rename threeFile "id-b" "renamed").1 = true
    ∧ (BookmarkStore.rename threeFile "id-b" "renamed").2.version = threeFile.version
    ∧ ∃ i : Nat, ∃ b : Bookmark, threeFile.items[i]? = some b ∧ b.id = "id-b"
        ∧ (BookmarkStore.rename threeFile "id-b" "renamed").2.items
          = threeFile.items.set i { b with label := "renamed" } :=
  (rename_spec threeFile "id-b" "renamed").2 secondB (by decide) (by decide)

/-- C1: the three tiers are attempted strictly in order and the first
success wins with the matching method tag — a stable-id hit yields
`"id"`; with the id tier failed, a fallback hit yields `"fallback"`
(never `"id"` or `"cwd"`); with both failed, the cwd tier runs only when
`meta.cwd` is recorded (truthy) and a hit yields `"cwd"`, while a missing
cwd means resolution fails outright. -/
theorem resolveBookmark_precedence (b : Bookmark) (st : TmuxState) :
    (∀ t, tryResolveById b st = some t → resolveBookmark b st = .resolved .id t)
    ∧ (tryResolveById b st = none →
        ∀ t, tryResolveByFallback b st = some t →
          resolveBookmark b st = .resolved .fallback t)
    ∧ (tryResolveById b st = none → tryResolveByFallback b st = none →
        ∀ c, b.meta.cwd = some c → c.isEmpty = false →
          (∀ t, tryResolveByCwd c st = some t →
              resolveBookmark b st = .resolved .cwd t)
          ∧ (tryResolveByCwd c st = none →
              resolveBookmark b st
                = .failed "Could not resolve bookmark to a valid tmux target"))
    ∧ (tryResolveById b st = none → tryResolveByFallback b st = none →
        truthy b.meta.cwd = false →
          resolveBookmark b st
            = .failed "Could not resolve bookmark to a valid tmux target") := by
  refine ⟨?_, ?_, ?_, ?_⟩
  · intro t h
    simp [resolveBookmark, h]
  · intro h1 t h2
    simp [resolveBookmark, h1, h2]
  · intro h1 h2 c hc hcne
    constructor
    · intro t h3
      simp [resolveBookmark, h1, h2, hc, hcne, h3]
    · intro h3
      simp [resolveBookmark, h1, h2, hc, hcne, h3]
  · intro h1 h2 h3
    simp only [resolveBookmark, h1, h2]
    cases hcwd : b.meta.cwd with
    | none => rfl
    | some c =>
      have hce : c.isEmpty = true := by
        rw [hcwd] at h3
        simpa [truthy] using h3
      simp [hce]

/-- C1 witness: the spec's concrete scenario — stable id `"$1"` is dead,
session name `"work"` is live as `"$7"`, so the result is method
`"fallback"` with target `{sessionId := "$7"}`. -/
theorem resolveBookmark_precedence_witness :
    resolveBookmark sessionBookmark sampleState
      = .resolved .fallback { sessionId := some "$7" } :=
  (resolveBookmark_precedence sessionBookmark sampleState).2.1 (by decide)
    { sessionId := some "$7" } (by decide)

/-- C8: in the fallback tier the window is sought by name first — a name
hit is used even when `windowIndex` is also set — and by index only when
the name lookup yields nothing; a pane bookmark that reaches a window
match resolves to a target holding only the session and window ids (no
pane id); and a missing session match, or a missing window match for
window/pane kinds, fails the tier with no partial target. -/
theorem tryResolveByFallback_spec (b : Bookmark) (st : TmuxState) :
    (∀ sid w, windowByNameForFallback st b.fallback sid = some w →
        windowForFallback st b.fallback sid = some w)
    ∧ (∀ sid, windowByNameForFallback st b.fallback sid = none →
        windowForFallback st b.fallback sid
          = match b.fallback.windowIndex with
            | none => none
            | some i => findWindowByIndex st sid i)
    ∧ (b.kind = .pane → ∀ t, tryResolveByFallback b st = some t →
        ∃ s w, sessionForFallback st b.fallback = some s
          ∧ windowForFallback st b.fallback s.sessionId = some w
          ∧ t = { sessionId := some s.sessionId, windowId := some w.windowId,
                  paneId := none })
    ∧ (sessionForFallback st b.fallback = none → tryResolveByFallback b st = none)
    ∧ (∀ s, sessionForFallback st b.fallback = some s → b.kind ≠ .session →
        windowForFallback st b.fallback s.sessionId = none →
        tryResolveByFallback b st = none) := by
  refine ⟨?_, ?_, ?_, ?_, ?_⟩
  · intro sid w h
    simp [windowForFallback, h]
  · intro sid h
    simp [windowForFallback, h]
  · intro hk t h
    rw [tryResolveByFallback] at h
    cases hs : sessionForFallback st b.fallback with
    | none => simp only [hs] at h; cases h
    | some s =>
      simp only [hs, hk] at h
      cases hw : windowForFallback st b.fallback s.sessionId with
      | none => simp only [hw] at h; cases h
      | some w =>
        simp only [hw] at h
        exact ⟨s, w, rfl, hw, (Option.some.inj h).symm⟩
  · intro h
    simp [tryResolveByFallback, h]
  · intro s hs hk hw
    rw [tryResolveByFallback, hs]
    cases hkind : b.kind with
    | session => exact absurd hkind hk
    | window => simp [hw]
    | pane => simp [hw]

/-- C8 witness: the pane bookmark's fallback names both a live window name
(`"editor"`, id `"@5"`) and a live window index (2, id `"@6"`); the tier
resolves through the name to `"@5"` and the pane target degrades to the
containing window with no pane id. -/
theorem tryResolveByFallback_spec_witness :
    windowForFallback sampleState paneBookmark.fallback "$7" = some editorWindow
    ∧ ∃ s w, sessionForFallback sampleState paneBookmark.fallback = some s
        ∧ windowForFallback sampleState paneBookmark.fallback s.sessionId = some w
        ∧ ({ sessionId := some "$7", windowId := some "@5" } : TmuxTarget)
          = { sessionId := some s.sessionId, windowId := some w.windowId,
              paneId := none } :=
  ⟨(tryResolveByFallback_spec paneBookmark sampleState).1 "$7" editorWindow (by decide),
   (tryResolveByFallback_spec paneBookmark sampleState).2.2.1 (by decide)
     { sessionId := some "$7", windowId := some "@5" } (by decide)⟩

/-- C10: with no fallback session name recorded the fallback tier fails for
every bookmark kind, whatever the window name/index fallbacks are, so such
a bookmark can resolve only through the id or cwd tiers. -/
theorem fallback_needs_sessionName (b : Bookmark) (st : TmuxState)
    (h : b.fallback.sessionName = none) :
    tryResolveByFallback b st = none
    ∧ ∀ m t, resolveBookmark b st = .resolved m t → m = .id ∨ m = .cwd := by
  have hs : sessionForFallback st b.fallback = none := by
    simp [sessionForFallback, h]
  have hfb : tryResolveByFallback b st = none := by
    simp [tryResolveByFallback, hs]
  refine ⟨hfb, ?_⟩
  intro m t hres
  rw [resolveBookmark, hfb] at hres
  cases hid : tryResolveById b st with
  | some t' =>
    simp only [hid] at hres
    cases hres
    exact Or.inl rfl
  | none =>
    simp only [hid] at hres
    cases hcwd : b.meta.cwd with
    | none => simp only [hcwd] at hres; cases hres
    | some c =>
      simp only [hcwd] at hres
      by_cases hce : c.isEmpty
      · rw [if_pos hce] at hres; cases hres
      · rw [if_neg hce] at hres
        cases hc : tryResolveByCwd c st with
        | none => simp only [hc] at hres; cases hres
        | some t' =>
          simp only [hc] at hres
          cases hres
          exact Or.inr rfl

/-- C10 witness: a window bookmark with window fallbacks set but no session
name cannot resolve through the fallback tier. -/
theorem fallback_needs_sessionName_witness :
    tryResolveByFallback noSessionBookmark sampleState = none :=
  (fallback_needs_sessionName noSessionBookmark sampleState (by decide)).1

end TmuxTui
